import Mathlib

/-!
Verification of the query-building and response-normalization layer of a
Weaviate admin proxy (source: src/manage.js).  JavaScript values are shallowly
embedded as `JSVal`; numbers are modeled as exact decimal fixed-point values
(`JSNum`, value = mant / 10 ^ exp), which covers every numeric literal the
program manipulates and renders the way JavaScript displays such literals.
Stateful route handlers are embedded as pure functions over an explicit
remote-call oracle.  Braces inside generated GraphQL text are written with
the escapes \x7b and \x7d.
-/

set_option maxRecDepth 40000

/-- Decimal fixed-point model of a JavaScript number: `mant / 10 ^ exp`. -/
structure JSNum where
  mant : Int
  exp : Nat
deriving DecidableEq

/-- Rendering of a `JSNum` the way JavaScript stringifies the corresponding
decimal literal: sign, integer part, then the fractional digits with trailing
zeros removed (`⟨5,1⟩` renders as "0.5", `⟨20,0⟩` as "20", `⟨0,0⟩` as "0"). -/
def JSNum.render (n : JSNum) : String :=
  let sign := if n.mant < 0 then "-" else ""
  let ds := (toString n.mant.natAbs).data
  let ds := if ds.length ≤ n.exp then List.replicate (n.exp + 1 - ds.length) '0' ++ ds else ds
  let intPart := ds.take (ds.length - n.exp)
  let fracPart := ((ds.drop (ds.length - n.exp)).reverse.dropWhile (fun c => c == '0')).reverse
  sign ++ String.mk intPart ++ (if fracPart.isEmpty then "" else "." ++ String.mk fracPart)

/-- Addition of two decimal fixed-point numbers (used by the `/info` total). -/
def JSNum.add (a b : JSNum) : JSNum :=
  ⟨a.mant * (10 : Int) ^ b.exp + b.mant * (10 : Int) ^ a.exp, a.exp + b.exp⟩

/-- Sum of a list of `JSNum`, starting from zero. -/
def jsSum (l : List JSNum) : JSNum :=
  l.foldl JSNum.add ⟨0, 0⟩

/-- Shallow embedding of JavaScript/JSON values.  `undefined` is a separate
value, as in JavaScript; objects are association lists. -/
inductive JSVal where
  | undefined
  | null
  | bool (b : Bool)
  | num (n : JSNum)
  | str (s : String)
  | arr (elems : List JSVal)
  | obj (fields : List (String × JSVal))

/-- JavaScript truthiness: `undefined`, `null`, `false`, `0`, and the empty
string are falsy; every other value (including empty arrays and objects) is
truthy. -/
def truthy : JSVal → Bool
  | .undefined => false
  | .null => false
  | .bool b => b
  | .num n => n.mant != 0
  | .str s => s != ""
  | .arr _ => true
  | .obj _ => true

/-- Whether a value is `undefined` (the condition for a JS default parameter
to kick in). -/
def JSVal.isUndefined : JSVal → Bool
  | .undefined => true
  | _ => false

/-- Strict equality `v === "lit"` against a string literal. -/
def JSVal.eqStr : JSVal → String → Bool
  | .str t, s => t == s
  | _, _ => false

/-- The JavaScript `a || b` operator on values: `a` when truthy, else `b`. -/
def jsOr (a b : JSVal) : JSVal :=
  if truthy a then a else b

mutual
/-- JavaScript string conversion of a value, as used by template-literal
interpolation. -/
def jsToString : JSVal → String
  | .undefined => "undefined"
  | .null => "null"
  | .bool b => if b then "true" else "false"
  | .num n => n.render
  | .str s => s
  | .arr xs => jsArrayBody xs
  | .obj _ => "[object Object]"
/-- `Array.prototype.toString`: elements joined by commas, with `null` and
`undefined` elements rendered as empty text. -/
def jsArrayBody : List JSVal → String
  | [] => ""
  | [v] =>
    match v with
    | .undefined => ""
    | .null => ""
    | v => jsToString v
  | v :: w :: rest =>
    (match v with
     | .undefined => ""
     | .null => ""
     | v => jsToString v) ++ "," ++ jsArrayBody (w :: rest)
end

/-- Hexadecimal digit, upper case (percent-encoding uses upper case). -/
def hexDigitUpper (n : Nat) : Char :=
  "0123456789ABCDEF".data.getD n '0'

/-- Hexadecimal digit, lower case (JSON \u escapes use lower case). -/
def hexDigitLower (n : Nat) : Char :=
  "0123456789abcdef".data.getD n '0'

/-- JSON escaping of one character inside a double-quoted JSON string, as
performed by `JSON.stringify`. -/
def jsonEscapeChar (c : Char) : List Char :=
  if c == '"' then ['\\', '"']
  else if c == '\\' then ['\\', '\\']
  else if c == '\n' then ['\\', 'n']
  else if c == '\r' then ['\\', 'r']
  else if c == '\t' then ['\\', 't']
  else if c == Char.ofNat 8 then ['\\', 'b']
  else if c == Char.ofNat 12 then ['\\', 'f']
  else if c.toNat < 32 then
    ['\\', 'u', '0', '0', hexDigitLower (c.toNat / 16), hexDigitLower (c.toNat % 16)]
  else [c]

/-- A string rendered as a double-quoted JSON string literal. -/
def jsonQuote (s : String) : String :=
  "\"" ++ String.mk (s.data.flatMap jsonEscapeChar) ++ "\""

mutual
/-- `JSON.stringify` on the embedded values (the top-level `undefined` case
renders as "undefined", matching what template interpolation would show). -/
def jsonStringify : JSVal → String
  | .undefined => "undefined"
  | .null => "null"
  | .bool b => if b then "true" else "false"
  | .num n => n.render
  | .str s => jsonQuote s
  | .arr xs => "[" ++ String.intercalate "," (jsonElems xs) ++ "]"
  | .obj fs => "\x7b" ++ String.intercalate "," (jsonMembers fs) ++ "\x7d"
/-- Array elements under `JSON.stringify`; `undefined` elements become null. -/
def jsonElems : List JSVal → List String
  | [] => []
  | v :: rest =>
    (match v with
     | .undefined => "null"
     | v => jsonStringify v) :: jsonElems rest
/-- Object members under `JSON.stringify`; `undefined` members are omitted. -/
def jsonMembers : List (String × JSVal) → List String
  | [] => []
  | (k, v) :: rest =>
    match v with
    | .undefined => jsonMembers rest
    | v => (jsonQuote k ++ ":" ++ jsonStringify v) :: jsonMembers rest
end

/-- One global single-character replacement pass,
`input.replace(/c/g, rep)` for a one-character pattern `c`. -/
def replaceChar (c : Char) (rep : List Char) : List Char → List Char
  | [] => []
  | x :: xs => (if x == c then rep else [x]) ++ replaceChar c rep xs

/-- The escaper of src/manage.js line 87 on character lists: four global
replacement passes, in source order — double every backslash, escape every
double quote, then replace newline and carriage return by their two-character
escapes. -/
def escapeList (l : List Char) : List Char :=
  replaceChar '\r' ['\\', 'r']
    (replaceChar '\n' ['\\', 'n']
      (replaceChar '"' ['\\', '"']
        (replaceChar '\\' ['\\', '\\'] l)))

/-- `escapeGraphQL` from src/manage.js lines 85-88: strings are escaped via
the four replacement passes; any non-string input is returned unchanged. -/
def escapeGraphQL : JSVal → JSVal
  | .str s => .str (String.mk (escapeList s.data))
  | v => v

/-- The intended per-character escape map (what a single left-to-right pass
over the input produces). -/
def escChar (c : Char) : List Char :=
  if c == '\\' then ['\\', '\\']
  else if c == '"' then ['\\', '"']
  else if c == '\n' then ['\\', 'n']
  else if c == '\r' then ['\\', 'r']
  else [c]

/-- Modelled from the spec: the repository ships no unescaper, and §8 of the
spec defines the round-trip property through the inverse substitution; this
is that inverse, reading one escape sequence (backslash-backslash,
backslash-quote, backslash-n, backslash-r) at a time. -/
def unescapeList : List Char → List Char
  | [] => []
  | [c] => [c]
  | c :: d :: rest =>
    if c == '\\' then
      if d == '\\' then '\\' :: unescapeList rest
      else if d == '"' then '"' :: unescapeList rest
      else if d == 'n' then '\n' :: unescapeList rest
      else if d == 'r' then '\r' :: unescapeList rest
      else c :: unescapeList (d :: rest)
    else c :: unescapeList (d :: rest)

/-- Every double quote in the list is immediately preceded by a backslash
(scanning left to right and skipping each escaped quote pair). -/
def noRawQuote : List Char → Bool
  | [] => true
  | [c] => c != '"'
  | c :: d :: rest =>
    if c == '"' then false
    else if c == '\\' && d == '"' then noRawQuote rest
    else noRawQuote (d :: rest)

/-- JavaScript whitespace for `String.prototype.trim` (ASCII blanks, the
common control characters, no-break space and the BOM). -/
def isJSSpace (c : Char) : Bool :=
  c == ' ' || c == '\t' || c == '\n' || c == '\r' ||
  c == Char.ofNat 11 || c == Char.ofNat 12 || c == Char.ofNat 160 || c == Char.ofNat 0xFEFF

/-- `String.prototype.trim`: strip leading and trailing whitespace. -/
def jsTrim (s : String) : String :=
  String.mk (((s.data.dropWhile isJSSpace).reverse.dropWhile isJSSpace).reverse)

/-- `DEFAULT_LIST_LIMIT` from src/manage.js line 14. -/
def DEFAULT_LIST_LIMIT : JSVal := .num ⟨20, 0⟩

/-- `DEFAULT_SEARCH_LIMIT` from src/manage.js line 15. -/
def DEFAULT_SEARCH_LIMIT : JSVal := .num ⟨5, 0⟩

/-- `DEFAULT_NEARTEXT_CERTAINTY` from src/manage.js line 16 (0.5). -/
def DEFAULT_NEARTEXT_CERTAINTY : JSVal := .num ⟨5, 1⟩

/-- `DEFAULT_SEARCH_PROPERTIES` from src/manage.js line 17. -/
def DEFAULT_SEARCH_PROPERTIES : JSVal := .arr [.str "query", .str "content"]

/-- `buildListQuery` from src/manage.js lines 96-109.  The `limit` parameter
is passed explicitly; `undefined` selects the JS default `DEFAULT_LIST_LIMIT`.
The template text reproduces the source template literal verbatim. -/
def buildListQuery (className limit : JSVal) : String :=
  let limit := if limit.isUndefined then DEFAULT_LIST_LIMIT else limit
  "\x7b\n    Get \x7b\n      " ++ jsToString className ++ "(" ++ "\n        " ++
  "limit: " ++ jsToString limit ++ "\n" ++
  "        sort: [\x7b path: [\"_creationTimeUnix\"], order: desc \x7d]\n      ) \x7b\n        " ++
  "query" ++ "\n        " ++ "content" ++ "\n        " ++ "_additional \x7b id \x7d" ++
  "\n      \x7d\n    \x7d\n  \x7d"

/-- The option bag taken by `buildSearchQuery` (absent members are
`undefined`, as for a missing JS object property). -/
structure SearchOptions where
  limit : JSVal
  alpha : JSVal
  properties : JSVal
  certainty : JSVal

/-- The options object `{ alpha }` built by the `/search` handler. -/
def onlyAlpha (a : JSVal) : SearchOptions :=
  ⟨JSVal.undefined, a, JSVal.undefined, JSVal.undefined⟩

/-- `buildSearchQuery` from src/manage.js lines 119-156.  A `type` of
`undefined` selects the JS default parameter 'hybrid'; `type === 'hybrid'`
picks the hybrid template, anything else the nearText template.  Defaults use
the JS `||` operator, so falsy supplied options also fall back.  Template
text reproduces the source template literals verbatim. -/
def buildSearchQuery (className query type : JSVal) (options : SearchOptions) : String :=
  let type := if type.isUndefined then JSVal.str "hybrid" else type
  let limit := jsOr options.limit DEFAULT_SEARCH_LIMIT
  let escapedQuery := escapeGraphQL query
  if type.eqStr "hybrid" then
    let alpha := jsOr options.alpha (JSVal.num ⟨5, 1⟩)
    let properties := jsOr options.properties DEFAULT_SEARCH_PROPERTIES
    "\x7b\n      Get \x7b\n        " ++ jsToString className ++ "(" ++
    "\n          hybrid: \x7b\n            query: \"" ++ jsToString escapedQuery ++
    "\"\n            " ++ "properties: " ++ jsonStringify properties ++
    "\n            " ++ "alpha: " ++ jsToString alpha ++ "\n" ++
    "          \x7d\n          " ++ "limit: " ++ jsToString limit ++ "\n" ++
    "        ) \x7b\n          " ++ "query" ++ "\n          " ++ "content" ++ "\n          " ++
    "_additional \x7b id score \x7d" ++ "\n        \x7d\n      \x7d\n    \x7d"
  else
    let certainty := jsOr options.certainty DEFAULT_NEARTEXT_CERTAINTY
    "\x7b\n      Get \x7b\n        " ++ jsToString className ++ "(" ++
    "\n          " ++ "nearText: \x7b concepts: [\"" ++ jsToString escapedQuery ++
    "\"], certainty: " ++ jsToString certainty ++ " \x7d" ++ "\n          " ++
    "limit: " ++ jsToString limit ++ "\n" ++
    "        ) \x7b\n          " ++ "content" ++ "\n          " ++
    "_additional \x7b id certainty \x7d" ++ "\n        \x7d\n      \x7d\n    \x7d"

/-- An HTTP response as observed by the fetch wrapper: status code, status
text, and the full body read as text. -/
structure HttpResponse where
  status : Nat
  statusText : String
  body : String

/-- `res.ok` of the fetch API: status in the 200-299 range. -/
def HttpResponse.ok (r : HttpResponse) : Bool :=
  200 ≤ r.status && r.status ≤ 299

/-- The two failure shapes thrown by `weaviateFetch`: a non-success HTTP
status, or a success status whose body is not valid JSON.  Each carries the
exact message text the source builds for `new Error(...)`. -/
inductive FetchError where
  | requestFailed (message : String)
  | invalidJSON (message : String)

/-- The message carried by a `FetchError`. -/
def FetchError.messageText : FetchError → String
  | .requestFailed m => m
  | .invalidJSON m => m

/-- `weaviateFetch` from src/manage.js lines 28-51, embedded as a function of
the observed response.  JSON decoding is the platform's `JSON.parse`,
abstracted as the `parseJSON` argument (`none` = a parse exception).  On a
non-success status it throws `Request to <path> failed: <msg>` where `msg` is
the trimmed body, or `<status> <statusText>` when the trimmed body is empty;
on a success status with an unparseable body it throws
`Invalid JSON response from <path>: <trimmed text or empty-response marker>`. -/
def weaviateFetch (parseJSON : String → Option JSVal) (path : String)
    (res : HttpResponse) : Except FetchError JSVal :=
  let text := res.body
  if !res.ok then
    let msg := if jsTrim text != "" then jsTrim text else toString res.status ++ " " ++ res.statusText
    .error (.requestFailed ("Request to " ++ path ++ " failed: " ++ msg))
  else
    match parseJSON text with
    | some j => .ok j
    | none =>
      .error (.invalidJSON ("Invalid JSON response from " ++ path ++ ": " ++
        (if jsTrim text != "" then jsTrim text else "empty response")))

/-- Optional-chaining property access `v?.key`: `none` models `undefined`,
and reading a property of a non-object or absent value yields `undefined`. -/
def jField : Option JSVal → String → Option JSVal
  | some (.obj fs), key => (fs.find? (fun p => p.1 == key)).map (fun p => p.2)
  | _, _ => none

/-- Optional-chaining index access `v?.[0]`. -/
def jIndexZero : Option JSVal → Option JSVal
  | some (.arr (x :: _)) => some x
  | _ => none

/-- The `/list` and `/search` result extraction of src/manage.js lines 206
and 268: `data?.data?.Get?.[className] ?? []` — nullish values anywhere on
the path collapse to an empty array. -/
def listHandlerResult (data : JSVal) (className : String) : JSVal :=
  match jField (jField (jField (some data) "data") "Get") className with
  | some JSVal.null => JSVal.arr []
  | some v => v
  | none => JSVal.arr []

/-- The navigation `data?.data?.Aggregate?.[className]?.[0]?.meta?.count`
from src/manage.js line 297. -/
def aggregateCountPath (data : JSVal) (className : String) : Option JSVal :=
  jField (jField (jIndexZero (jField (jField (jField (some data) "data") "Aggregate") className)) "meta") "count"

/-- The value `typeof count === 'number' ? count : null` from src/manage.js
line 298: the count only when the path ends at a number, otherwise null. -/
def aggregateCountValue (data : JSVal) (className : String) : Option JSNum :=
  match aggregateCountPath data className with
  | some (.num n) => some n
  | _ => none

/-- `aggregateCountForClass` from src/manage.js lines 291-299: one GraphQL
call (embedded as the `fetchData` oracle mapping a class name to the outcome
of its aggregate query), then the typed count extraction. -/
def aggregateCountForClass (fetchData : String → Except FetchError JSVal)
    (className : String) : Except FetchError (Option JSNum) :=
  match fetchData className with
  | .ok data => .ok (aggregateCountValue data className)
  | .error e => .error e

/-- UTF-8 bytes of a unicode scalar value. -/
def utf8Bytes (n : Nat) : List Nat :=
  if n < 128 then [n]
  else if n < 2048 then [192 + n / 64, 128 + n % 64]
  else if n < 65536 then [224 + n / 4096, 128 + (n / 64) % 64, 128 + n % 64]
  else [240 + n / 262144, 128 + (n / 4096) % 64, 128 + (n / 64) % 64, 128 + n % 64]

/-- The characters `encodeURIComponent` leaves unencoded. -/
def isURIUnreserved (c : Char) : Bool :=
  c.isAlphanum || c == '-' || c == '_' || c == '.' || c == '!' || c == '~' ||
  c == '*' || c == Char.ofNat 39 || c == '(' || c == ')'

/-- Percent-encoding of one character as its UTF-8 byte sequence. -/
def percentEncode (c : Char) : List Char :=
  (utf8Bytes c.toNat).flatMap (fun b => ['%', hexDigitUpper (b / 16), hexDigitUpper (b % 16)])

/-- The platform `encodeURIComponent`. -/
def encodeURIComponent (s : String) : String :=
  String.mk (s.data.flatMap (fun c => if isURIUnreserved c then [c] else percentEncode c))

/-- The object-detail path including vector data (first attempt). -/
def objectPathWithVector (id : String) : String :=
  "/v1/objects/" ++ encodeURIComponent id ++ "?include=vector"

/-- The object-detail path without the vector-inclusion flag (the retry). -/
def objectPathPlain (id : String) : String :=
  "/v1/objects/" ++ encodeURIComponent id

/-- The `/object` handler body of src/manage.js lines 245-252: try the
vector-inclusive path; on any failure retry once on the plain path.  The
`remote` oracle maps a request path to its outcome; the second component
records the remote attempts in order, one entry per `weaviateFetch` call. -/
def objectHandlerRun (remote : String → Except FetchError JSVal) (id : String) :
    Except FetchError JSVal × List String :=
  match remote (objectPathWithVector id) with
  | .ok obj => (.ok obj, [objectPathWithVector id])
  | .error _ => (remote (objectPathPlain id), [objectPathWithVector id, objectPathPlain id])

/-- Property access `c.key` returning `undefined` when absent. -/
def jPropOr (c : JSVal) (key : String) : JSVal :=
  match jField (some c) key with
  | some v => v
  | none => JSVal.undefined

/-- `c.class || c.name || c`, then the object-key string the `/info` handler
indexes `classDetails` with (src/manage.js line 309). -/
def classKeyName (c : JSVal) : String :=
  jsToString (jsOr (jPropOr c "class") (jsOr (jPropOr c "name") c))

/-- The count stored for one schema class by the `/info` handler, lines
318-323: a thrown fetch error is caught and leaves the count null; otherwise
the extracted (possibly null) count is stored. -/
def infoClassCount (fetchData : String → Except FetchError JSVal) (c : JSVal) : Option JSNum :=
  match aggregateCountForClass fetchData (classKeyName c) with
  | .ok v => v
  | .error _ => none

/-- The `classDetails` map built by `/info` (restricted to the name and count
members the claims are about), one entry per schema class in order. -/
def infoClassEntries (fetchData : String → Except FetchError JSVal)
    (classes : List JSVal) : List (String × Option JSNum) :=
  classes.map (fun c => (classKeyName c, infoClassCount fetchData c))

/-- The running `total` of `/info`, src/manage.js lines 306 and 320: starts
at zero and accumulates exactly the numerically-typed counts. -/
def infoTotal (fetchData : String → Except FetchError JSVal)
    (classes : List JSVal) : JSNum :=
  classes.foldl
    (fun total c =>
      match infoClassCount fetchData c with
      | some n => total.add n
      | none => total) ⟨0, 0⟩

/-- The `/search` request body; the source handler destructures `base`,
`class`, `query`, `type`, `alpha` and `apiKey` only (`className` stands for
the JS member `class`), and the remaining members model extra data a caller
may send. -/
structure SearchBody where
  base : JSVal
  className : JSVal
  query : JSVal
  type : JSVal
  alpha : JSVal
  certainty : JSVal
  properties : JSVal
  limit : JSVal
  apiKey : JSVal

/-- The GraphQL text the `/search` handler of src/manage.js lines 255-269
sends, `none` when a required member fails its falsiness validation.  Only
`alpha` is forwarded into the builder options. -/
def searchHandlerQuery (body : SearchBody) : Option String :=
  if !truthy body.base then none
  else if !truthy body.className then none
  else if !truthy body.query then none
  else some (buildSearchQuery body.className body.query body.type (onlyAlpha body.alpha))

/-- Substring containment on strings. -/
def containsSub (hay needle : String) : Prop :=
  needle.data <:+: hay.data

instance (hay needle : String) : Decidable (containsSub hay needle) :=
  List.decidableInfix needle.data hay.data

/-! Helper lemmas about substring containment and the generated text. -/

theorem containsSub_of_split (hay pre needle suf : String)
    (h : hay.data = pre.data ++ needle.data ++ suf.data) : containsSub hay needle :=
  ⟨pre.data, suf.data, h.symm⟩

theorem containsSub_inner (hay mid needle : String)
    (h1 : containsSub hay mid) (h2 : containsSub mid needle) : containsSub hay needle :=
  List.IsInfix.trans h2 h1

theorem replaceChar_append (c : Char) (rep a b : List Char) :
    replaceChar c rep (a ++ b) = replaceChar c rep a ++ replaceChar c rep b := by
  induction a with
  | nil => rfl
  | cons x xs ih => simp [replaceChar, ih]

theorem escapeList_cons (x : Char) (l : List Char) :
    escapeList (x :: l) = escChar x ++ escapeList l := by
  show replaceChar '\r' _ (replaceChar '\n' _ (replaceChar '"' _ (replaceChar '\\' _ (x :: l)))) = _
  by_cases h1 : x = '\\'
  · subst h1; simp [replaceChar, replaceChar_append, escChar, escapeList]
  · by_cases h2 : x = '"'
    · subst h2; simp [replaceChar, replaceChar_append, escChar, escapeList]
    · by_cases h3 : x = '\n'
      · subst h3; simp [replaceChar, replaceChar_append, escChar, escapeList]
      · by_cases h4 : x = '\r'
        · subst h4; simp [replaceChar, replaceChar_append, escChar, escapeList]
        · simp [replaceChar, replaceChar_append, escChar, escapeList, h1, h2, h3, h4]

theorem escapeList_flatMap (l : List Char) : escapeList l = l.flatMap escChar := by
  induction l with
  | nil => rfl
  | cons x xs ih => rw [escapeList_cons, ih]; simp

theorem unescape_cons_notBackslash (x : Char) (t : List Char) (hx : (x == '\\') = false) :
    unescapeList (x :: t) = x :: unescapeList t := by
  cases t with
  | nil => rfl
  | cons d rest => simp [unescapeList, hx]

theorem unescape_escChar (x : Char) (t : List Char) :
    unescapeList (escChar x ++ t) = x :: unescapeList t := by
  by_cases h1 : x = '\\'
  · subst h1; simp [escChar, unescapeList]
  · by_cases h2 : x = '"'
    · subst h2; simp [escChar, unescapeList]
    · by_cases h3 : x = '\n'
      · subst h3; simp [escChar, unescapeList]
      · by_cases h4 : x = '\r'
        · subst h4; simp [escChar, unescapeList]
        · simp only [escChar, h1, h2, h3, h4, if_false, beq_iff_eq]
          simp only [List.singleton_append]
          exact unescape_cons_notBackslash x t (by simp [h1])

theorem unescape_escapeList (l : List Char) : unescapeList (escapeList l) = l := by
  induction l with
  | nil => rfl
  | cons x xs ih => rw [escapeList_cons, unescape_escChar, ih]

theorem nrq_cons_cons (c d : Char) (t : List Char) :
    noRawQuote (c :: d :: t) =
      if c == '"' then false
      else if c == '\\' && d == '"' then noRawQuote t
      else noRawQuote (d :: t) := rfl

theorem nrq_backslash_backslash (t : List Char) :
    noRawQuote ('\\' :: '\\' :: t) = noRawQuote ('\\' :: t) := by
  rw [nrq_cons_cons]; rfl

theorem nrq_backslash_quote (t : List Char) :
    noRawQuote ('\\' :: '"' :: t) = noRawQuote t := by
  rw [nrq_cons_cons]; rfl

theorem nrq_plain (c : Char) (hq : (c == '"') = false) (hb : (c == '\\') = false)
    (t : List Char) : noRawQuote (c :: t) = noRawQuote t := by
  cases t with
  | nil => show (c != '"') = noRawQuote []; simp [bne, hq, noRawQuote]
  | cons d rest => rw [nrq_cons_cons, hq, hb]; rfl

theorem nrq_backslash_plain (d : Char) (hd : (d == '"') = false) (t : List Char) :
    noRawQuote ('\\' :: d :: t) = noRawQuote (d :: t) := by
  rw [nrq_cons_cons, hd]; rfl

theorem noRawQuote_escape_aux (l : List Char) :
    noRawQuote (escapeList l) = true ∧ noRawQuote ('\\' :: escapeList l) = true := by
  induction l with
  | nil => exact ⟨rfl, rfl⟩
  | cons x xs ih =>
    rw [escapeList_cons]
    by_cases h1 : x = '\\'
    · subst h1
      refine ⟨?_, ?_⟩
      · show noRawQuote ('\\' :: '\\' :: escapeList xs) = true
        rw [nrq_backslash_backslash]; exact ih.2
      · show noRawQuote ('\\' :: '\\' :: '\\' :: escapeList xs) = true
        rw [nrq_backslash_backslash, nrq_backslash_backslash]; exact ih.2
    · by_cases h2 : x = '"'
      · subst h2
        refine ⟨?_, ?_⟩
        · show noRawQuote ('\\' :: '"' :: escapeList xs) = true
          rw [nrq_backslash_quote]; exact ih.1
        · show noRawQuote ('\\' :: '\\' :: '"' :: escapeList xs) = true
          rw [nrq_backslash_backslash, nrq_backslash_quote]; exact ih.1
      · by_cases h3 : x = '\n'
        · subst h3
          refine ⟨?_, ?_⟩
          · show noRawQuote ('\\' :: 'n' :: escapeList xs) = true
            rw [nrq_backslash_plain 'n' rfl, nrq_plain 'n' rfl rfl]; exact ih.1
          · show noRawQuote ('\\' :: '\\' :: 'n' :: escapeList xs) = true
            rw [nrq_backslash_backslash, nrq_backslash_plain 'n' rfl, nrq_plain 'n' rfl rfl]; exact ih.1
        · by_cases h4 : x = '\r'
          · subst h4
            refine ⟨?_, ?_⟩
            · show noRawQuote ('\\' :: 'r' :: escapeList xs) = true
              rw [nrq_backslash_plain 'r' rfl, nrq_plain 'r' rfl rfl]; exact ih.1
            · show noRawQuote ('\\' :: '\\' :: 'r' :: escapeList xs) = true
              rw [nrq_backslash_backslash, nrq_backslash_plain 'r' rfl, nrq_plain 'r' rfl rfl]; exact ih.1
          · have hq : (x == '"') = false := by simp [h2]
            have hb : (x == '\\') = false := by simp [h1]
            have hesc : escChar x = [x] := by simp [escChar, h1, h2, h3, h4]
            rw [hesc]
            refine ⟨?_, ?_⟩
            · show noRawQuote (x :: escapeList xs) = true
              rw [nrq_plain x hq hb]; exact ih.1
            · show noRawQuote ('\\' :: x :: escapeList xs) = true
              rw [nrq_backslash_plain x hq, nrq_plain x hq hb]; exact ih.1

/-! Canonical decompositions of the generated query texts. -/

theorem buildSearchQuery_eq_hybrid (cn q type : JSVal) (opts : SearchOptions)
    (h : (if type.isUndefined then JSVal.str "hybrid" else type).eqStr "hybrid" = true) :
    buildSearchQuery cn q type opts =
    "\x7b\n      Get \x7b\n        " ++ jsToString cn ++ "(" ++
    "\n          hybrid: \x7b\n            query: \"" ++ jsToString (escapeGraphQL q) ++
    "\"\n            " ++ "properties: " ++ jsonStringify (jsOr opts.properties DEFAULT_SEARCH_PROPERTIES) ++
    "\n            " ++ "alpha: " ++ jsToString (jsOr opts.alpha (JSVal.num ⟨5, 1⟩)) ++ "\n" ++
    "          \x7d\n          " ++ "limit: " ++ jsToString (jsOr opts.limit DEFAULT_SEARCH_LIMIT) ++ "\n" ++
    "        ) \x7b\n          " ++ "query" ++ "\n          " ++ "content" ++ "\n          " ++
    "_additional \x7b id score \x7d" ++ "\n        \x7d\n      \x7d\n    \x7d" := by
  simp only [buildSearchQuery, h, if_true]

theorem buildSearchQuery_eq_nearText (cn q type : JSVal) (opts : SearchOptions)
    (h : (if type.isUndefined then JSVal.str "hybrid" else type).eqStr "hybrid" = false) :
    buildSearchQuery cn q type opts =
    "\x7b\n      Get \x7b\n        " ++ jsToString cn ++ "(" ++
    "\n          " ++ "nearText: \x7b concepts: [\"" ++ jsToString (escapeGraphQL q) ++
    "\"], certainty: " ++ jsToString (jsOr opts.certainty DEFAULT_NEARTEXT_CERTAINTY) ++ " \x7d" ++ "\n          " ++
    "limit: " ++ jsToString (jsOr opts.limit DEFAULT_SEARCH_LIMIT) ++ "\n" ++
    "        ) \x7b\n          " ++ "content" ++ "\n          " ++
    "_additional \x7b id certainty \x7d" ++ "\n        \x7d\n      \x7d\n    \x7d" := by
  simp only [buildSearchQuery, h, Bool.false_eq_true, if_false]

theorem buildListQuery_eq (cn lim : JSVal) :
    buildListQuery cn lim =
    "\x7b\n    Get \x7b\n      " ++ jsToString cn ++ "(" ++ "\n        " ++
    "limit: " ++ jsToString (if lim.isUndefined then DEFAULT_LIST_LIMIT else lim) ++ "\n" ++
    "        sort: [\x7b path: [\"_creationTimeUnix\"], order: desc \x7d]\n      ) \x7b\n        " ++
    "query" ++ "\n        " ++ "content" ++ "\n        " ++ "_additional \x7b id \x7d" ++
    "\n      \x7d\n    \x7d\n  \x7d" := rfl

/-- C1 (amended): for every className, queryText and options, the hybrid-mode
query text contains the escaped queryText — in which every double quote is
preceded by a backslash, never raw — a properties clause carrying the caller's
properties when truthy and the default list `["query","content"]` otherwise, an
alpha clause carrying the caller's alpha forwarded as-is, without numeric
validation, when the alpha is truthy and 0.5 when it is absent or falsy (the
JS `||` default), a limit clause (5 when absent or falsy), and requests the
fields query, content, id and score.  The original claim's unconditional
"caller-supplied alpha interpolated as-is" fails for the falsy alpha 0. -/
theorem hybrid_query_shape (className queryText : String) (opts : SearchOptions) :
    containsSub (buildSearchQuery (.str className) (.str queryText) (.str "hybrid") opts)
      (String.mk (escapeList queryText.data)) ∧
    noRawQuote (escapeList queryText.data) = true ∧
    containsSub (buildSearchQuery (.str className) (.str queryText) (.str "hybrid") opts)
      ("properties: " ++ jsonStringify (jsOr opts.properties DEFAULT_SEARCH_PROPERTIES)) ∧
    containsSub (buildSearchQuery (.str className) (.str queryText) (.str "hybrid") opts)
      ("alpha: " ++ jsToString (jsOr opts.alpha (JSVal.num ⟨5, 1⟩)) ++ "\n") ∧
    containsSub (buildSearchQuery (.str className) (.str queryText) (.str "hybrid") opts)
      ("limit: " ++ jsToString (jsOr opts.limit DEFAULT_SEARCH_LIMIT) ++ "\n") ∧
    containsSub (buildSearchQuery (.str className) (.str queryText) (.str "hybrid") opts) "query" ∧
    containsSub (buildSearchQuery (.str className) (.str queryText) (.str "hybrid") opts) "content" ∧
    containsSub (buildSearchQuery (.str className) (.str queryText) (.str "hybrid") opts)
      "_additional \x7b id score \x7d" := by
  have he := buildSearchQuery_eq_hybrid (.str className) (.str queryText) (.str "hybrid") opts rfl
  refine ⟨?_, (noRawQuote_escape_aux queryText.data).1, ?_, ?_, ?_, ?_, ?_, ?_⟩
  · exact containsSub_of_split _
      ("\x7b\n      Get \x7b\n        " ++ jsToString (.str className) ++ "(" ++
       "\n          hybrid: \x7b\n            query: \"")
      _
      ("\"\n            " ++ "properties: " ++ jsonStringify (jsOr opts.properties DEFAULT_SEARCH_PROPERTIES) ++
       "\n            " ++ "alpha: " ++ jsToString (jsOr opts.alpha (JSVal.num ⟨5, 1⟩)) ++ "\n" ++
       "          \x7d\n          " ++ "limit: " ++ jsToString (jsOr opts.limit DEFAULT_SEARCH_LIMIT) ++ "\n" ++
       "        ) \x7b\n          " ++ "query" ++ "\n          " ++ "content" ++ "\n          " ++
       "_additional \x7b id score \x7d" ++ "\n        \x7d\n      \x7d\n    \x7d")
      (by rw [he]; simp [String.data_append, jsToString, escapeGraphQL])
  · exact containsSub_of_split _
      ("\x7b\n      Get \x7b\n        " ++ jsToString (.str className) ++ "(" ++
       "\n          hybrid: \x7b\n            query: \"" ++ jsToString (escapeGraphQL (.str queryText)) ++
       "\"\n            ")
      _
      ("\n            " ++ "alpha: " ++ jsToString (jsOr opts.alpha (JSVal.num ⟨5, 1⟩)) ++ "\n" ++
       "          \x7d\n          " ++ "limit: " ++ jsToString (jsOr opts.limit DEFAULT_SEARCH_LIMIT) ++ "\n" ++
       "        ) \x7b\n          " ++ "query" ++ "\n          " ++ "content" ++ "\n          " ++
       "_additional \x7b id score \x7d" ++ "\n        \x7d\n      \x7d\n    \x7d")
      (by rw [he]; simp [String.data_append])
  · exact containsSub_of_split _
      ("\x7b\n      Get \x7b\n        " ++ jsToString (.str className) ++ "(" ++
       "\n          hybrid: \x7b\n            query: \"" ++ jsToString (escapeGraphQL (.str queryText)) ++
       "\"\n            " ++ "properties: " ++ jsonStringify (jsOr opts.properties DEFAULT_SEARCH_PROPERTIES) ++
       "\n            ")
      _
      ("          \x7d\n          " ++ "limit: " ++ jsToString (jsOr opts.limit DEFAULT_SEARCH_LIMIT) ++ "\n" ++
       "        ) \x7b\n          " ++ "query" ++ "\n          " ++ "content" ++ "\n          " ++
       "_additional \x7b id score \x7d" ++ "\n        \x7d\n      \x7d\n    \x7d")
      (by rw [he]; simp [String.data_append])
  · exact containsSub_of_split _
      ("\x7b\n      Get \x7b\n        " ++ jsToString (.str className) ++ "(" ++
       "\n          hybrid: \x7b\n            query: \"" ++ jsToString (escapeGraphQL (.str queryText)) ++
       "\"\n            " ++ "properties: " ++ jsonStringify (jsOr opts.properties DEFAULT_SEARCH_PROPERTIES) ++
       "\n            " ++ "alpha: " ++ jsToString (jsOr opts.alpha (JSVal.num ⟨5, 1⟩)) ++ "\n" ++
       "          \x7d\n          ")
      _
      ("        ) \x7b\n          " ++ "query" ++ "\n          " ++ "content" ++ "\n          " ++
       "_additional \x7b id score \x7d" ++ "\n        \x7d\n      \x7d\n    \x7d")
      (by rw [he]; simp [String.data_append])
  · exact containsSub_of_split _
      ("\x7b\n      Get \x7b\n        " ++ jsToString (.str className) ++ "(" ++
       "\n          hybrid: \x7b\n            query: \"" ++ jsToString (escapeGraphQL (.str queryText)) ++
       "\"\n            " ++ "properties: " ++ jsonStringify (jsOr opts.properties DEFAULT_SEARCH_PROPERTIES) ++
       "\n            " ++ "alpha: " ++ jsToString (jsOr opts.alpha (JSVal.num ⟨5, 1⟩)) ++ "\n" ++
       "          \x7d\n          " ++ "limit: " ++ jsToString (jsOr opts.limit DEFAULT_SEARCH_LIMIT) ++ "\n" ++
       "        ) \x7b\n          ")
      _
      ("\n          " ++ "content" ++ "\n          " ++
       "_additional \x7b id score \x7d" ++ "\n        \x7d\n      \x7d\n    \x7d")
      (by rw [he]; simp [String.data_append])
  · exact containsSub_of_split _
      ("\x7b\n      Get \x7b\n        " ++ jsToString (.str className) ++ "(" ++
       "\n          hybrid: \x7b\n            query: \"" ++ jsToString (escapeGraphQL (.str queryText)) ++
       "\"\n            " ++ "properties: " ++ jsonStringify (jsOr opts.properties DEFAULT_SEARCH_PROPERTIES) ++
       "\n            " ++ "alpha: " ++ jsToString (jsOr opts.alpha (JSVal.num ⟨5, 1⟩)) ++ "\n" ++
       "          \x7d\n          " ++ "limit: " ++ jsToString (jsOr opts.limit DEFAULT_SEARCH_LIMIT) ++ "\n" ++
       "        ) \x7b\n          " ++ "query" ++ "\n          ")
      _
      ("\n          " ++ "_additional \x7b id score \x7d" ++ "\n        \x7d\n      \x7d\n    \x7d")
      (by rw [he]; simp [String.data_append])
  · exact containsSub_of_split _
      ("\x7b\n      Get \x7b\n        " ++ jsToString (.str className) ++ "(" ++
       "\n          hybrid: \x7b\n            query: \"" ++ jsToString (escapeGraphQL (.str queryText)) ++
       "\"\n            " ++ "properties: " ++ jsonStringify (jsOr opts.properties DEFAULT_SEARCH_PROPERTIES) ++
       "\n            " ++ "alpha: " ++ jsToString (jsOr opts.alpha (JSVal.num ⟨5, 1⟩)) ++ "\n" ++
       "          \x7d\n          " ++ "limit: " ++ jsToString (jsOr opts.limit DEFAULT_SEARCH_LIMIT) ++ "\n" ++
       "        ) \x7b\n          " ++ "query" ++ "\n          " ++ "content" ++ "\n          ")
      _
      ("\n        \x7d\n      \x7d\n    \x7d")
      (by rw [he]; simp [String.data_append])

/-- C1: the original claim is false — a caller-supplied alpha of 0 is falsy
under the JS `||` default, so it is not interpolated as-is: the produced
hybrid clause reads `alpha: 0.5`, not `alpha: 0`. -/
theorem hybrid_alpha_zero_counterexample :
    ¬ containsSub
        (buildSearchQuery (.str "Doc") (.str "q") (.str "hybrid") (onlyAlpha (.num ⟨0, 0⟩)))
        ("alpha: " ++ jsToString (JSVal.num ⟨0, 0⟩) ++ "\n") ∧
    containsSub
      (buildSearchQuery (.str "Doc") (.str "q") (.str "hybrid") (onlyAlpha (.num ⟨0, 0⟩)))
      "alpha: 0.5" := by
  constructor
  · decide
  · decide

/-- C8 (amended): for every className, queryText and options, the nearText-mode
query text interpolates the escaped queryText as a single-element concepts
list together with the caller's certainty when truthy and 0.5 when absent or
falsy (the JS `||` default), contains a limit clause (5 when absent or
falsy), and its selection set — a fixed suffix of the output — requests
exactly the fields content, id and certainty, with no query field in it.  The
original claim's unconditional "the caller's certainty" fails for the falsy
certainty 0. -/
theorem neartext_query_shape (className queryText : String) (opts : SearchOptions) :
    containsSub (buildSearchQuery (.str className) (.str queryText) (.str "nearText") opts)
      ("nearText: \x7b concepts: [\"" ++ String.mk (escapeList queryText.data) ++
       "\"], certainty: " ++ jsToString (jsOr opts.certainty DEFAULT_NEARTEXT_CERTAINTY) ++ " \x7d") ∧
    containsSub (buildSearchQuery (.str className) (.str queryText) (.str "nearText") opts)
      ("limit: " ++ jsToString (jsOr opts.limit DEFAULT_SEARCH_LIMIT) ++ "\n") ∧
    ("        ) \x7b\n          " ++ "content" ++ "\n          " ++
     "_additional \x7b id certainty \x7d" ++ "\n        \x7d\n      \x7d\n    \x7d").data <:+
      (buildSearchQuery (.str className) (.str queryText) (.str "nearText") opts).data ∧
    ¬ containsSub
        ("        ) \x7b\n          " ++ "content" ++ "\n          " ++
         "_additional \x7b id certainty \x7d" ++ "\n        \x7d\n      \x7d\n    \x7d") "query" := by
  have he := buildSearchQuery_eq_nearText (.str className) (.str queryText) (.str "nearText") opts rfl
  refine ⟨?_, ?_, ?_, by decide⟩
  · refine containsSub_of_split _
      ("\x7b\n      Get \x7b\n        " ++ jsToString (.str className) ++ "(" ++ "\n          ")
      _
      ("\n          " ++ "limit: " ++ jsToString (jsOr opts.limit DEFAULT_SEARCH_LIMIT) ++ "\n" ++
       "        ) \x7b\n          " ++ "content" ++ "\n          " ++
       "_additional \x7b id certainty \x7d" ++ "\n        \x7d\n      \x7d\n    \x7d")
      (by rw [he]; simp [String.data_append, jsToString, escapeGraphQL])
  · refine containsSub_of_split _
      ("\x7b\n      Get \x7b\n        " ++ jsToString (.str className) ++ "(" ++
       "\n          " ++ "nearText: \x7b concepts: [\"" ++ jsToString (escapeGraphQL (.str queryText)) ++
       "\"], certainty: " ++ jsToString (jsOr opts.certainty DEFAULT_NEARTEXT_CERTAINTY) ++ " \x7d" ++ "\n          ")
      _
      ("        ) \x7b\n          " ++ "content" ++ "\n          " ++
       "_additional \x7b id certainty \x7d" ++ "\n        \x7d\n      \x7d\n    \x7d")
      (by rw [he]; simp [String.data_append])
  · refine ⟨("\x7b\n      Get \x7b\n        " ++ jsToString (.str className) ++ "(" ++
       "\n          " ++ "nearText: \x7b concepts: [\"" ++ jsToString (escapeGraphQL (.str queryText)) ++
       "\"], certainty: " ++ jsToString (jsOr opts.certainty DEFAULT_NEARTEXT_CERTAINTY) ++ " \x7d" ++ "\n          " ++
       "limit: " ++ jsToString (jsOr opts.limit DEFAULT_SEARCH_LIMIT) ++ "\n").data, ?_⟩
    rw [he]; simp [String.data_append]

/-- C8: the original claim is false — a caller-supplied certainty of 0 is
falsy under the JS `||` default, so the produced nearText clause reads
`certainty: 0.5`, not `certainty: 0`. -/
theorem neartext_certainty_zero_counterexample :
    ¬ containsSub
        (buildSearchQuery (.str "Doc") (.str "q") (.str "nearText")
          ⟨.undefined, .undefined, .undefined, .num ⟨0, 0⟩⟩)
        ("certainty: " ++ jsToString (JSVal.num ⟨0, 0⟩) ++ " \x7d") ∧
    containsSub
      (buildSearchQuery (.str "Doc") (.str "q") (.str "nearText")
        ⟨.undefined, .undefined, .undefined, .num ⟨0, 0⟩⟩)
      "certainty: 0.5" := by
  constructor
  · decide
  · decide

/-- C9: for every className, `buildListQuery(className)` (limit left
undefined) produces query text containing the className immediately followed
by an opening parenthesis, a `limit: 20` clause, a descending sort on
`_creationTimeUnix`, and the fields query, content and id;
`buildListQuery(className, 5)` contains `limit: 5` instead. -/
theorem list_query_shape (className : String) :
    containsSub (buildListQuery (.str className) .undefined) (className ++ "(") ∧
    containsSub (buildListQuery (.str className) .undefined) "limit: 20" ∧
    containsSub (buildListQuery (.str className) .undefined)
      "sort: [\x7b path: [\"_creationTimeUnix\"], order: desc \x7d]" ∧
    containsSub (buildListQuery (.str className) .undefined) "query" ∧
    containsSub (buildListQuery (.str className) .undefined) "content" ∧
    containsSub (buildListQuery (.str className) .undefined) "_additional \x7b id \x7d" ∧
    containsSub (buildListQuery (.str className) (.num ⟨5, 0⟩)) "limit: 5" := by
  have he := buildListQuery_eq (.str className) .undefined
  have he5 := buildListQuery_eq (.str className) (.num ⟨5, 0⟩)
  refine ⟨?_, ?_, ?_, ?_, ?_, ?_, ?_⟩
  · refine containsSub_of_split _ ("\x7b\n    Get \x7b\n      ") _
      ("\n        " ++ "limit: " ++ jsToString (if JSVal.isUndefined .undefined then DEFAULT_LIST_LIMIT else .undefined) ++ "\n" ++
       "        sort: [\x7b path: [\"_creationTimeUnix\"], order: desc \x7d]\n      ) \x7b\n        " ++
       "query" ++ "\n        " ++ "content" ++ "\n        " ++ "_additional \x7b id \x7d" ++
       "\n      \x7d\n    \x7d\n  \x7d")
      (by rw [he]; simp [String.data_append, jsToString])
  · refine containsSub_inner _
      ("limit: " ++ jsToString (if JSVal.isUndefined .undefined then DEFAULT_LIST_LIMIT else .undefined) ++ "\n") _
      (containsSub_of_split _
        ("\x7b\n    Get \x7b\n      " ++ jsToString (.str className) ++ "(" ++ "\n        ")
        _
        ("        sort: [\x7b path: [\"_creationTimeUnix\"], order: desc \x7d]\n      ) \x7b\n        " ++
         "query" ++ "\n        " ++ "content" ++ "\n        " ++ "_additional \x7b id \x7d" ++
         "\n      \x7d\n    \x7d\n  \x7d")
        (by rw [he]; simp [String.data_append]))
      (by decide)
  · refine containsSub_inner _
      ("        sort: [\x7b path: [\"_creationTimeUnix\"], order: desc \x7d]\n      ) \x7b\n        ") _
      (containsSub_of_split _
        ("\x7b\n    Get \x7b\n      " ++ jsToString (.str className) ++ "(" ++ "\n        " ++
         "limit: " ++ jsToString (if JSVal.isUndefined .undefined then DEFAULT_LIST_LIMIT else .undefined) ++ "\n")
        _
        ("query" ++ "\n        " ++ "content" ++ "\n        " ++ "_additional \x7b id \x7d" ++
         "\n      \x7d\n    \x7d\n  \x7d")
        (by rw [he]; simp [String.data_append]))
      (by decide)
  · refine containsSub_of_split _
      ("\x7b\n    Get \x7b\n      " ++ jsToString (.str className) ++ "(" ++ "\n        " ++
       "limit: " ++ jsToString (if JSVal.isUndefined .undefined then DEFAULT_LIST_LIMIT else .undefined) ++ "\n" ++
       "        sort: [\x7b path: [\"_creationTimeUnix\"], order: desc \x7d]\n      ) \x7b\n        ")
      _
      ("\n        " ++ "content" ++ "\n        " ++ "_additional \x7b id \x7d" ++ "\n      \x7d\n    \x7d\n  \x7d")
      (by rw [he]; simp [String.data_append])
  · refine containsSub_of_split _
      ("\x7b\n    Get \x7b\n      " ++ jsToString (.str className) ++ "(" ++ "\n        " ++
       "limit: " ++ jsToString (if JSVal.isUndefined .undefined then DEFAULT_LIST_LIMIT else .undefined) ++ "\n" ++
       "        sort: [\x7b path: [\"_creationTimeUnix\"], order: desc \x7d]\n      ) \x7b\n        " ++
       "query" ++ "\n        ")
      _
      ("\n        " ++ "_additional \x7b id \x7d" ++ "\n      \x7d\n    \x7d\n  \x7d")
      (by rw [he]; simp [String.data_append])
  · refine containsSub_of_split _
      ("\x7b\n    Get \x7b\n      " ++ jsToString (.str className) ++ "(" ++ "\n        " ++
       "limit: " ++ jsToString (if JSVal.isUndefined .undefined then DEFAULT_LIST_LIMIT else .undefined) ++ "\n" ++
       "        sort: [\x7b path: [\"_creationTimeUnix\"], order: desc \x7d]\n      ) \x7b\n        " ++
       "query" ++ "\n        " ++ "content" ++ "\n        ")
      _
      ("\n      \x7d\n    \x7d\n  \x7d")
      (by rw [he]; simp [String.data_append])
  · refine containsSub_inner _
      ("limit: " ++ jsToString (if JSVal.isUndefined (.num ⟨5, 0⟩) then DEFAULT_LIST_LIMIT else .num ⟨5, 0⟩) ++ "\n") _
      (containsSub_of_split _
        ("\x7b\n    Get \x7b\n      " ++ jsToString (.str className) ++ "(" ++ "\n        ")
        _
        ("        sort: [\x7b path: [\"_creationTimeUnix\"], order: desc \x7d]\n      ) \x7b\n        " ++
         "query" ++ "\n        " ++ "content" ++ "\n        " ++ "_additional \x7b id \x7d" ++
         "\n      \x7d\n    \x7d\n  \x7d")
        (by rw [he5]; simp [String.data_append]))
      (by decide)

/-- C10 (implicit): the `/search` handler forwards only the request's alpha
into the builder options; caller-supplied certainty, properties and limit
members are ignored — replacing them changes nothing — so every generated
query uses the defaults for them: a `limit: 5` clause always, the default
properties list `["query","content"]` in hybrid mode, and `certainty: 0.5` in
nearText mode. -/
theorem search_handler_only_alpha (body : SearchBody) (c p l : JSVal) :
    searchHandlerQuery ⟨body.base, body.className, body.query, body.type, body.alpha, c, p, l, body.apiKey⟩
      = searchHandlerQuery body ∧
    (∀ gql, searchHandlerQuery body = some gql →
      containsSub gql ("limit: " ++ jsToString DEFAULT_SEARCH_LIMIT ++ "\n") ∧
      ((if body.type.isUndefined then JSVal.str "hybrid" else body.type).eqStr "hybrid" = true →
        containsSub gql ("properties: " ++ jsonStringify DEFAULT_SEARCH_PROPERTIES)) ∧
      ((if body.type.isUndefined then JSVal.str "hybrid" else body.type).eqStr "hybrid" = false →
        containsSub gql ("certainty: " ++ jsToString DEFAULT_NEARTEXT_CERTAINTY ++ " \x7d"))) := by
  refine ⟨rfl, ?_⟩
  intro gql hgql
  have hbuild : gql = buildSearchQuery body.className body.query body.type (onlyAlpha body.alpha) := by
    unfold searchHandlerQuery at hgql
    by_cases hb : truthy body.base
    · by_cases hc : truthy body.className
      · by_cases hq : truthy body.query
        · simp [hb, hc, hq] at hgql; exact hgql.symm
        · simp [hb, hc, hq] at hgql
      · simp [hb, hc] at hgql
    · simp [hb] at hgql
  subst hbuild
  cases htype : (if body.type.isUndefined then JSVal.str "hybrid" else body.type).eqStr "hybrid" with
  | true =>
    have he := buildSearchQuery_eq_hybrid body.className body.query body.type (onlyAlpha body.alpha) htype
    refine ⟨?_, fun _ => ?_, fun hff => absurd hff (by decide)⟩
    · refine containsSub_of_split _
        ("\x7b\n      Get \x7b\n        " ++ jsToString body.className ++ "(" ++
         "\n          hybrid: \x7b\n            query: \"" ++ jsToString (escapeGraphQL body.query) ++
         "\"\n            " ++ "properties: " ++ jsonStringify (jsOr (onlyAlpha body.alpha).properties DEFAULT_SEARCH_PROPERTIES) ++
         "\n            " ++ "alpha: " ++ jsToString (jsOr (onlyAlpha body.alpha).alpha (JSVal.num ⟨5, 1⟩)) ++ "\n" ++
         "          \x7d\n          ")
        _
        ("        ) \x7b\n          " ++ "query" ++ "\n          " ++ "content" ++ "\n          " ++
         "_additional \x7b id score \x7d" ++ "\n        \x7d\n      \x7d\n    \x7d")
        (by rw [he]; simp [String.data_append, onlyAlpha, jsOr, truthy])
    · refine containsSub_of_split _
        ("\x7b\n      Get \x7b\n        " ++ jsToString body.className ++ "(" ++
         "\n          hybrid: \x7b\n            query: \"" ++ jsToString (escapeGraphQL body.query) ++
         "\"\n            ")
        _
        ("\n            " ++ "alpha: " ++ jsToString (jsOr (onlyAlpha body.alpha).alpha (JSVal.num ⟨5, 1⟩)) ++ "\n" ++
         "          \x7d\n          " ++ "limit: " ++ jsToString (jsOr (onlyAlpha body.alpha).limit DEFAULT_SEARCH_LIMIT) ++ "\n" ++
         "        ) \x7b\n          " ++ "query" ++ "\n          " ++ "content" ++ "\n          " ++
         "_additional \x7b id score \x7d" ++ "\n        \x7d\n      \x7d\n    \x7d")
        (by rw [he]; simp [String.data_append, onlyAlpha, jsOr, truthy])
  | false =>
    have he := buildSearchQuery_eq_nearText body.className body.query body.type (onlyAlpha body.alpha) htype
    refine ⟨?_, fun htt => absurd htt (by decide), fun _ => ?_⟩
    · refine containsSub_of_split _
        ("\x7b\n      Get \x7b\n        " ++ jsToString body.className ++ "(" ++
         "\n          " ++ "nearText: \x7b concepts: [\"" ++ jsToString (escapeGraphQL body.query) ++
         "\"], certainty: " ++ jsToString (jsOr (onlyAlpha body.alpha).certainty DEFAULT_NEARTEXT_CERTAINTY) ++ " \x7d" ++ "\n          ")
        _
        ("        ) \x7b\n          " ++ "content" ++ "\n          " ++
         "_additional \x7b id certainty \x7d" ++ "\n        \x7d\n      \x7d\n    \x7d")
        (by rw [he]; simp [String.data_append, onlyAlpha, jsOr, truthy])
    · refine containsSub_inner _
        ("\"], certainty: " ++ jsToString DEFAULT_NEARTEXT_CERTAINTY ++ " \x7d") _
        (containsSub_of_split _
          ("\x7b\n      Get \x7b\n        " ++ jsToString body.className ++ "(" ++
           "\n          " ++ "nearText: \x7b concepts: [\"" ++ jsToString (escapeGraphQL body.query))
          _
          ("\n          " ++ "limit: " ++ jsToString (jsOr (onlyAlpha body.alpha).limit DEFAULT_SEARCH_LIMIT) ++ "\n" ++
           "        ) \x7b\n          " ++ "content" ++ "\n          " ++
           "_additional \x7b id certainty \x7d" ++ "\n        \x7d\n      \x7d\n    \x7d")
          (by rw [he]; simp [String.data_append, onlyAlpha, jsOr, truthy]))
        (by decide)

/-- C10 witness: a concrete nearText request carrying certainty 0.9,
properties and limit 3 in the body still yields the defaults, and replacing
those ignored members does not change the handler output. -/
theorem search_handler_only_alpha_witness :
    searchHandlerQuery ⟨.str "http://h", .str "Doc", .str "q", .str "nearText", .str "0.7",
        .undefined, .undefined, .undefined, .undefined⟩
      = searchHandlerQuery ⟨.str "http://h", .str "Doc", .str "q", .str "nearText", .str "0.7",
        .num ⟨9, 1⟩, .arr [.str "query"], .num ⟨3, 0⟩, .undefined⟩ ∧
    containsSub (buildSearchQuery (.str "Doc") (.str "q") (.str "nearText") (onlyAlpha (.str "0.7")))
      ("limit: " ++ jsToString DEFAULT_SEARCH_LIMIT ++ "\n") ∧
    containsSub (buildSearchQuery (.str "Doc") (.str "q") (.str "nearText") (onlyAlpha (.str "0.7")))
      ("certainty: " ++ jsToString DEFAULT_NEARTEXT_CERTAINTY ++ " \x7d") := by
  have h := search_handler_only_alpha
    ⟨.str "http://h", .str "Doc", .str "q", .str "nearText", .str "0.7",
      .num ⟨9, 1⟩, .arr [.str "query"], .num ⟨3, 0⟩, .undefined⟩
    .undefined .undefined .undefined
  have h2 := h.2 (buildSearchQuery (.str "Doc") (.str "q") (.str "nearText") (onlyAlpha (.str "0.7"))) rfl
  exact ⟨h.1.symm, h2.1, h2.2.2 rfl⟩

/-- C4: for every string input, the escaper applies its substitutions in
exactly the source order — first every backslash is doubled, then every
double quote is escaped, then every newline and every carriage return become
their two-character escapes — and that ordered composition coincides with the
intended single left-to-right per-character escape (so no pass double-escapes
the output of an earlier one); every non-string input is returned unchanged. -/
theorem escape_pass_order (s : String) (v : JSVal) :
    escapeGraphQL (.str s) =
      .str (String.mk (replaceChar '\r' ['\\', 'r']
        (replaceChar '\n' ['\\', 'n']
          (replaceChar '"' ['\\', '"']
            (replaceChar '\\' ['\\', '\\'] s.data))))) ∧
    escapeList s.data = s.data.flatMap escChar ∧
    ((∀ t, v ≠ JSVal.str t) → escapeGraphQL v = v) := by
  refine ⟨rfl, escapeList_flatMap s.data, ?_⟩
  intro hv
  cases v with
  | str t => exact absurd rfl (hv t)
  | undefined => rfl
  | null => rfl
  | bool b => rfl
  | num n => rfl
  | arr xs => rfl
  | obj fs => rfl

/-- C4 witness: the escaper at concrete inputs — a non-string (a number)
passes through unchanged, and the string with a backslash, quote and newline
is escaped in order without double-escaping. -/
theorem escape_pass_order_witness :
    escapeGraphQL (JSVal.num ⟨3, 0⟩) = JSVal.num ⟨3, 0⟩ ∧
    escapeGraphQL (JSVal.str "a\\\"\nb") = JSVal.str "a\\\\\\\"\\nb" := by
  refine ⟨(escape_pass_order "a" (JSVal.num ⟨3, 0⟩)).2.2 (fun t h => JSVal.noConfusion h), ?_⟩
  rw [(escape_pass_order "a\\\"\nb" (JSVal.num ⟨3, 0⟩)).1]
  rfl

/-- C5: escaping is losslessly invertible — the spec-defined inverse
unescaping reconstructs every string exactly, hence escaping is injective —
and it is single-pass, not a fixed point: escaping an already-escaped value
double-escapes it (witnessed by the quote string). -/
theorem escape_roundtrip (s : String) :
    String.mk (unescapeList (escapeList s.data)) = s ∧
    (∀ t : String, escapeList s.data = escapeList t.data → s = t) ∧
    escapeList (escapeList "\"".data) ≠ escapeList "\"".data := by
  refine ⟨?_, ?_, by decide⟩
  · rw [unescape_escapeList]
  · intro t h
    have hs := unescape_escapeList s.data
    have ht := unescape_escapeList t.data
    rw [h] at hs
    exact String.ext (hs.symm.trans ht)

/-- C5 witness: the round trip at a concrete string containing every escaped
character, and injectivity applied at a concrete pair. -/
theorem escape_roundtrip_witness :
    String.mk (unescapeList (escapeList "a\"b\\c\nd\re".data)) = "a\"b\\c\nd\re" ∧
    ("x" : String) = "x" := by
  exact ⟨(escape_roundtrip "a\"b\\c\nd\re").1,
    (escape_roundtrip "x").2.1 "x" rfl⟩

/-- C2 (amended): for every response, the wrapper fails on a non-success
status with a request-failure error whose message is
`Request to <path> failed: ` followed by the trimmed body text — or by the
status code and status text when the trimmed body is blank — and on a success
status whose body does not parse as JSON it fails with the distinct
invalid-JSON error kind whose message carries the trimmed raw text (or the
`empty response` marker when blank); the two error kinds are distinguishable.
The original claim's "message is the trimmed response body text" fails: the
message carries a request-context prefix before the body text. -/
theorem weaviateFetch_failure_shapes (parseJSON : String → Option JSVal)
    (path : String) (res : HttpResponse) :
    (res.ok = false → weaviateFetch parseJSON path res =
      .error (.requestFailed ("Request to " ++ path ++ " failed: " ++
        (if jsTrim res.body != "" then jsTrim res.body
         else toString res.status ++ " " ++ res.statusText)))) ∧
    (res.ok = true → parseJSON res.body = none → weaviateFetch parseJSON path res =
      .error (.invalidJSON ("Invalid JSON response from " ++ path ++ ": " ++
        (if jsTrim res.body != "" then jsTrim res.body else "empty response")))) ∧
    (∀ m m2, FetchError.requestFailed m ≠ FetchError.invalidJSON m2) := by
  refine ⟨?_, ?_, fun m m2 h => FetchError.noConfusion h⟩
  · intro hok
    simp [weaviateFetch, hok]
  · intro hok hparse
    simp [weaviateFetch, hok, hparse]

/-- C2 witness: a 404 with body `not found` fails with the request-failure
message carrying the trimmed body after the prefix, and a 200 with the
unparseable body `<html>` fails with the distinct invalid-JSON kind. -/
theorem weaviateFetch_failure_shapes_witness :
    weaviateFetch (fun _ => none) "/v1/graphql" ⟨404, "Not Found", "not found"⟩ =
      .error (.requestFailed "Request to /v1/graphql failed: not found") ∧
    weaviateFetch (fun _ => none) "/v1/graphql" ⟨200, "OK", "<html>"⟩ =
      .error (.invalidJSON "Invalid JSON response from /v1/graphql: <html>") := by
  constructor
  · exact ((weaviateFetch_failure_shapes (fun _ => none) "/v1/graphql"
      ⟨404, "Not Found", "not found"⟩).1 rfl).trans (by rfl)
  · exact ((weaviateFetch_failure_shapes (fun _ => none) "/v1/graphql"
      ⟨200, "OK", "<html>"⟩).2.1 rfl rfl).trans (by rfl)

/-- C2: the original claim is false at status 404 with body `not found`: the
failure message is `Request to /v1/graphql failed: not found`, which is not
the trimmed body text `not found`. -/
theorem remote_message_prefix_counterexample :
    weaviateFetch (fun _ => none) "/v1/graphql" ⟨404, "Not Found", "not found"⟩ =
      .error (.requestFailed "Request to /v1/graphql failed: not found") ∧
    FetchError.messageText (.requestFailed "Request to /v1/graphql failed: not found") ≠
      "not found" := by
  constructor
  · rfl
  · decide

/-- C3: normalization keeps the per-case absent-path semantics — when the
`data.Get.<className>` path is absent at any level the List/Search extraction
yields the empty array rather than failing, and the aggregate extraction
yields a count exactly when the `data.Aggregate.<className>[0].meta.count`
path ends at a numerically-typed value, reporting null otherwise and never
defaulting to zero. -/
theorem extraction_absent_semantics (data : JSVal) (className : String) :
    (jField (jField (jField (some data) "data") "Get") className = none →
      listHandlerResult data className = JSVal.arr []) ∧
    (∀ n : JSNum, aggregateCountValue data className = some n ↔
      aggregateCountPath data className = some (JSVal.num n)) := by
  constructor
  · intro h
    unfold listHandlerResult
    rw [h]
  · intro n
    unfold aggregateCountValue
    cases hp : aggregateCountPath data className with
    | none => simp
    | some v =>
      cases v with
      | num m => simp
      | undefined => simp
      | null => simp
      | bool b => simp
      | str s => simp
      | arr xs => simp
      | obj fs => simp

/-- C3 witness: a response whose `Get` object lacks the class yields the
empty array, and a well-formed aggregate response yields its numeric count
42 (and a response with a non-numeric count yields null). -/
theorem extraction_absent_semantics_witness :
    listHandlerResult (JSVal.obj [("data", JSVal.obj [("Get", JSVal.obj [])])]) "Doc" =
      JSVal.arr [] ∧
    aggregateCountValue
      (JSVal.obj [("data", JSVal.obj [("Aggregate", JSVal.obj [("Doc",
        JSVal.arr [JSVal.obj [("meta", JSVal.obj [("count", JSVal.num ⟨42, 0⟩)])]])])])])
      "Doc" = some ⟨42, 0⟩ ∧
    aggregateCountValue
      (JSVal.obj [("data", JSVal.obj [("Aggregate", JSVal.obj [("Doc",
        JSVal.arr [JSVal.obj [("meta", JSVal.obj [("count", JSVal.str "42")])]])])])])
      "Doc" = none := by
  refine ⟨(extraction_absent_semantics
      (JSVal.obj [("data", JSVal.obj [("Get", JSVal.obj [])])]) "Doc").1 rfl,
    ((extraction_absent_semantics _ "Doc").2 ⟨42, 0⟩).mpr rfl, rfl⟩

/-- C6: for every remote behavior and object id, the detail handler first
attempts the vector-inclusive path; when that attempt succeeds there is
exactly one attempt, and when it fails — for any error — there is exactly one
retry on the path without the vector flag, in that order, whose outcome
(success or final failure) is surfaced. -/
theorem object_detail_fallback (remote : String → Except FetchError JSVal) (id : String) :
    (∀ j, remote (objectPathWithVector id) = .ok j →
      objectHandlerRun remote id = (.ok j, [objectPathWithVector id])) ∧
    (∀ e, remote (objectPathWithVector id) = .error e →
      objectHandlerRun remote id =
        (remote (objectPathPlain id), [objectPathWithVector id, objectPathPlain id])) := by
  constructor
  · intro j h
    unfold objectHandlerRun
    rw [h]
  · intro e h
    unfold objectHandlerRun
    rw [h]

/-- A test double for the object-detail fallback: the vector-inclusive path
answers 400, every other path succeeds. -/
def remoteDouble400 : String → Except FetchError JSVal :=
  fun p =>
    if p = objectPathWithVector "abc" then
      .error (.requestFailed "Request to /v1/objects/abc?include=vector failed: 400 Bad Request")
    else .ok JSVal.null

/-- C6 witness: with the 400-on-vector-path double, the handler makes exactly
the two attempts, vector-inclusive first, and surfaces the retry's result. -/
theorem object_detail_fallback_witness :
    objectHandlerRun remoteDouble400 "abc" =
      (.ok JSVal.null, [objectPathWithVector "abc", objectPathPlain "abc"]) := by
  have h := (object_detail_fallback remoteDouble400 "abc").2
    (FetchError.requestFailed "Request to /v1/objects/abc?include=vector failed: 400 Bad Request")
    (by rfl)
  rw [h]
  rfl

theorem info_total_aux (fetchData : String → Except FetchError JSVal)
    (cs : List JSVal) (acc : JSNum) :
    cs.foldl
      (fun total c =>
        match infoClassCount fetchData c with
        | some n => total.add n
        | none => total) acc
      = ((cs.map (fun c => (classKeyName c, infoClassCount fetchData c))).filterMap
          Prod.snd).foldl JSNum.add acc := by
  induction cs generalizing acc with
  | nil => rfl
  | cons c cs ih =>
    cases h : infoClassCount fetchData c with
    | some n => simp [h, ih]
    | none => simp [h, ih]

/-- C7: for every count oracle and schema class list, the `/info` aggregation
tolerates per-class failures — the details keep one entry per class in order,
a class whose count call fails is reported with a null count rather than
aborting, and the returned total is exactly the sum of the successfully
retrieved numeric counts. -/
theorem info_partial_failure (fetchData : String → Except FetchError JSVal)
    (classes : List JSVal) :
    (infoClassEntries fetchData classes).map Prod.fst = classes.map classKeyName ∧
    (infoClassEntries fetchData classes).length = classes.length ∧
    (∀ c e, c ∈ classes → fetchData (classKeyName c) = .error e →
      (classKeyName c, (none : Option JSNum)) ∈ infoClassEntries fetchData classes) ∧
    infoTotal fetchData classes = jsSum ((infoClassEntries fetchData classes).filterMap Prod.snd) := by
  refine ⟨?_, ?_, ?_, ?_⟩
  · simp [infoClassEntries]
  · simp [infoClassEntries]
  · intro c e hc herr
    have hcount : infoClassCount fetchData c = none := by
      unfold infoClassCount aggregateCountForClass
      rw [herr]
    refine List.mem_map.mpr ⟨c, hc, ?_⟩
    rw [hcount]
  · exact info_total_aux fetchData classes ⟨0, 0⟩

/-- Three schema classes for the fan-out witness. -/
def infoClasses3 : List JSVal :=
  [JSVal.obj [("class", JSVal.str "A")], JSVal.obj [("class", JSVal.str "B")],
   JSVal.obj [("class", JSVal.str "C")]]

/-- A count oracle where class B's call throws while A and C return counts
1 and 2. -/
def infoFetch3 : String → Except FetchError JSVal :=
  fun cn =>
    if cn = "B" then .error (.requestFailed "Request to /v1/graphql failed: boom")
    else if cn = "A" then
      .ok (JSVal.obj [("data", JSVal.obj [("Aggregate", JSVal.obj [("A",
        JSVal.arr [JSVal.obj [("meta", JSVal.obj [("count", JSVal.num ⟨1, 0⟩)])]])])])])
    else
      .ok (JSVal.obj [("data", JSVal.obj [("Aggregate", JSVal.obj [("C",
        JSVal.arr [JSVal.obj [("meta", JSVal.obj [("count", JSVal.num ⟨2, 0⟩)])]])])])])

/-- C7 witness: with three classes of which B's count call throws, all three
entries are present, B's count is null, and the total 3 sums only A's 1 and
C's 2. -/
theorem info_partial_failure_witness :
    infoClassEntries infoFetch3 infoClasses3 =
      [("A", some ⟨1, 0⟩), ("B", none), ("C", some ⟨2, 0⟩)] ∧
    ("B", (none : Option JSNum)) ∈ infoClassEntries infoFetch3 infoClasses3 ∧
    infoTotal infoFetch3 infoClasses3 = jsSum [⟨1, 0⟩, ⟨2, 0⟩] ∧
    infoTotal infoFetch3 infoClasses3 = ⟨3, 0⟩ := by
  refine ⟨by rfl, ?_, ?_, by rfl⟩
  · exact (info_partial_failure infoFetch3 infoClasses3).2.2.1
      (JSVal.obj [("class", JSVal.str "B")])
      (FetchError.requestFailed "Request to /v1/graphql failed: boom")
      (List.mem_cons_of_mem _ (List.mem_cons_self _ _))
      (by rfl)
  · rw [(info_partial_failure infoFetch3 infoClasses3).2.2.2]
    rfl
